import Mathlib

/-!
Verification development for `asyncio_xmpp/xml.py`: the outbound
`XMPPXMLGenerator` (a namespace-conforming SAX-style XML serializer) and the
inbound `XMPPXMLProcessor` (a state machine over SAX parse events for XMPP
streams).

The Python classes are embedded shallowly: the mutable object state becomes a
structure, every method becomes a function from the state to a result that is
either `ok` with the new state or `err` with an error tag and the state as it
was at the moment the exception was raised (writes performed before the raise
persist, exactly as they do on the real byte sink).  Python strings are Lean
`String`s, Python dicts are insertion-ordered association lists, Python sets
are duplicate-free lists, and the byte sink accumulates into the `out` field
(UTF-8 encoding is the identity at this level of modelling).

Identifier note: the Python names use the word "prefix"; in this file that
word is abbreviated to "Pfx" in identifiers (e.g. `_roll_prefix` becomes
`rollPfx`, `startPrefixMapping` becomes `startPfxMapping`,
`_ns_prefixes_floating_in` becomes `ns_pfxs_floating_in`).
-/

/-! ## Python dict / set / string primitives -/

/-- Membership test on a list, by decidable equality (models Python `in` for
sets and lists). -/
def listContains [DecidableEq α] : List α → α → Bool
  | [], _ => false
  | x :: xs, a => if x = a then true else listContains xs a

/-- Remove the first occurrence of an element (models `set.remove` on a
duplicate-free list). -/
def listRemove [DecidableEq α] : List α → α → List α
  | [], _ => []
  | x :: xs, a => if x = a then xs else x :: listRemove xs a

/-- Insert into a set modelled as a duplicate-free list (models `set.add`). -/
def setInsert [DecidableEq α] (l : List α) (a : α) : List α :=
  if listContains l a then l else l ++ [a]

/-- Set difference on lists (models Python `set(xs) - ys`). -/
def listDiff [DecidableEq α] (l r : List α) : List α :=
  l.filter (fun x => !listContains r x)

/-- Insertion-ordered association list, modelling a Python `dict`. -/
abbrev Dict (α β : Type) := List (α × β)

/-- Key lookup (models `d[k]` / `d.get(k)`). -/
def dictGet [DecidableEq α] : Dict α β → α → Option β
  | [], _ => none
  | (k, v) :: rest, key => if k = key then some v else dictGet rest key

/-- Key membership (models `k in d`, which tests dict *keys* in Python). -/
def dictContains [DecidableEq α] (d : Dict α β) (key : α) : Bool :=
  (dictGet d key).isSome

/-- Lookup with a default (models `d.get(k, default)` and the value part of
`d.pop(k, default)`). -/
def dictGetD [DecidableEq α] (d : Dict α β) (key : α) (dflt : β) : β :=
  (dictGet d key).getD dflt

/-- Assignment `d[k] = v`: replaces the value in place when the key exists
(keeping its position, as Python dicts do), appends otherwise. -/
def dictSet [DecidableEq α] : Dict α β → α → β → Dict α β
  | [], key, val => [(key, val)]
  | (k, v) :: rest, key, val =>
      if k = key then (k, val) :: rest else (k, v) :: dictSet rest key val

/-- Key removal (models the removal part of `d.pop(k)`). -/
def dictErase [DecidableEq α] : Dict α β → α → Dict α β
  | [], _ => []
  | (k, v) :: rest, key => if k = key then rest else (k, v) :: dictErase rest key

/-- Model of `d.update(other)`: assign every binding of `other` into `d`, in order. -/
def dictUpdate [DecidableEq α] (d other : Dict α β) : Dict α β :=
  other.foldl (fun acc kv => dictSet acc kv.1 kv.2) d

/-- Keys of a dict, in insertion order (models `set(d)` up to order). -/
def dictKeys (d : Dict α β) : List α :=
  d.map Prod.fst

/-! ## Strings and characters -/

/-- The apostrophe character, written via its code point. -/
def sqChar : Char := Char.ofNat 39

/-- Code-point lexicographic order on character lists, as Python compares
strings. -/
def charListLe : List Char → List Char → Bool
  | [], _ => true
  | _ :: _, [] => false
  | a :: as, b :: bs =>
      if a.toNat < b.toNat then true
      else if b.toNat < a.toNat then false
      else charListLe as bs

/-- String order used by Python `sorted` on the prefix strings. -/
def strLe (a b : String) : Bool := charListLe a.data b.data

/-- One step of `xml.sax.saxutils.escape`: the sequential replaces of `&`,
`<`, `>` commute with a per-character expansion because every pattern is a
single character and no replacement string re-introduces `<` or `>`. -/
def escapeChar (c : Char) : String :=
  if c = '&' then "&amp;"
  else if c = '<' then "&lt;"
  else if c = '>' then "&gt;"
  else String.singleton c

/-- Model of `xml.sax.saxutils.escape` with no extra entities. -/
def saxEscape (s : String) : String :=
  String.join (s.data.map escapeChar)

/-- Per-character body of `xml.sax.saxutils.quoteattr`: escape plus the
additional entities for newline, carriage return and tab. -/
def quoteattrChar (c : Char) : String :=
  if c = '&' then "&amp;"
  else if c = '<' then "&lt;"
  else if c = '>' then "&gt;"
  else if c = '\n' then "&#10;"
  else if c = '\r' then "&#13;"
  else if c = '\t' then "&#9;"
  else String.singleton c

/-- Replace every double quote by `&quot;` (the inner replace of
`quoteattr` when the data holds both kinds of quote). -/
def quoteDouble (s : String) : String :=
  String.join (s.data.map (fun c => if c = '"' then "&quot;" else String.singleton c))

/-- Model of `xml.sax.saxutils.quoteattr`: escape the data, then choose the quote
style exactly as the Python library does. -/
def quoteattr (s : String) : String :=
  let d := String.join (s.data.map quoteattrChar)
  if listContains d.data '"' then
    if listContains d.data sqChar then
      "\"" ++ quoteDouble d ++ "\""
    else
      String.singleton sqChar ++ d ++ String.singleton sqChar
  else
    "\"" ++ d ++ "\""

/-! ## External name validator

The XML `Name` check is delegated by the source to libxml2's
`xmlValidateNameValue`; the spec lists it as an external collaborator with
the standard XML 1.0 `Name` grammar.  Modelled from the spec: an
ASCII-restricted rendering of that grammar (every name appearing in the
claims is ASCII). -/

/-- First character of an XML `Name` (ASCII fragment of the grammar). -/
def isNameStartChar (c : Char) : Bool :=
  c.isAlpha || c = '_' || c = ':'

/-- Subsequent character of an XML `Name` (ASCII fragment of the grammar). -/
def isNameChar (c : Char) : Bool :=
  isNameStartChar c || c.isDigit || c = '-' || c = '.'

/-- Modelled from the spec: the external name validator
`xmlValidateNameValue_str` (libxml2), restricted to ASCII names. -/
def xmlValidateNameValue_str (s : String) : Bool :=
  match s.data with
  | [] => false
  | c :: cs => isNameStartChar c && cs.all isNameChar

/-! ## XMPPXMLGenerator: state and errors -/

/-- A qualified name `(namespace_uri, localname)`; the URI component is
`None`-able in Python, hence `Option String`. -/
abbrev NameT := Option String × String

/-- Python truthiness of the URI component of a name (`if name[0]:`): both
`None` and the empty string are falsy. -/
def truthyU : Option String → Bool
  | none => false
  | some s => s ≠ ""

/-- The reserved XML namespace URI compared against in `_qname`. -/
def xmlNsUri : String := "http://www.w3.org/XML/1998/namespace"

/-- One raise site of the generator each; the Python exception class of each
tag: `invalidName`, `invalidPfx`, `duplicatePfx`, `ambiguousNs`, `xmlnsAttr`,
`restrictedCharacter` and `piForbidden` are `ValueError`; `unclosedPfx` is
`RuntimeError`; `notDeclared` is the `KeyError` of `set.remove` in
`endPrefixMapping`; `stackEmpty` is the `IndexError` of popping the empty
namespace-map stack. -/
inductive GenError where
  | invalidName (n : String)
  | invalidPfx (p : Option String)
  | duplicatePfx (p : Option String)
  | unclosedPfx
  | ambiguousNs
  | xmlnsAttr
  | restrictedCharacter
  | piForbidden
  | notDeclared (p : Option String)
  | stackEmpty
deriving DecidableEq, Repr

/-- Which Python exception class a `GenError` tag corresponds to:
`true` exactly for the `RuntimeError` raise sites. -/
def GenError.isRuntimeError : GenError → Bool
  | .unclosedPfx => true
  | _ => false

/-- A scope frame of `_ns_map_stack`: the namespace map before the element's
declarations, the set of explicitly (non-automatically) declared prefixes of
the element, and the counter value from before the element. -/
abbrev ScopeFrame := Dict (Option String) (Option String) × List (Option String) × Int

/-- The mutable state of an `XMPPXMLGenerator` instance.  `out` is the byte
sink's accumulated content (encoding is the identity); `ns_map_stack` keeps
its top at the head (Python appends and pops at the end of the list);
`pending_start_element` is `False` or the name of the deferred start tag,
hence an `Option`. -/
structure XMPPXMLGenerator where
  out : String
  ns_map_stack : List ScopeFrame
  curr_ns_map : Dict (Option String) (Option String)
  short_empty_elements : Bool
  pending_start_element : Option NameT
  ns_pfxs_floating_in : Dict (Option String) (Option String)
  ns_pfxs_floating_out : List (Option String)
  ns_auto_pfxs_floating_in : List (Option String)
  ns_decls_floating_in : Dict (Option String) (Option String)
  ns_counter : Int
deriving DecidableEq, Repr

/-- Result of one generator method: either the new state, or an error
together with the state at the moment of the raise (writes already made to
the sink persist in `out`). -/
inductive GRes where
  | ok : XMPPXMLGenerator → GRes
  | err : GenError → XMPPXMLGenerator → GRes
deriving DecidableEq, Repr

namespace XMPPXMLGenerator

/-- The `__init__` state (`short_empty_elements` is the constructor
argument; the sink starts empty). -/
def init (short_empty : Bool) : XMPPXMLGenerator :=
  { out := ""
    ns_map_stack := [([], [], 0)]
    curr_ns_map := []
    short_empty_elements := short_empty
    pending_start_element := none
    ns_pfxs_floating_in := []
    ns_pfxs_floating_out := []
    ns_auto_pfxs_floating_in := []
    ns_decls_floating_in := []
    ns_counter := -1 }

/-- The search loop of `_roll_prefix`: starting at candidate number `n`,
advance while `"ns{n}"` is a pending prefix.  The loop always terminates
because the pending map is finite; `fuel` is one more than its size, enough
for the loop to pass every blocking key. -/
def rollPfxLoop (floating : Dict (Option String) (Option String)) : Int → Nat → Int
  | n, 0 => n
  | n, fuel + 1 =>
      if dictContains floating (some ("ns" ++ toString n)) then
        rollPfxLoop floating (n + 1) fuel
      else n

/-- Model of `_roll_prefix`: the chosen counter value and the prefix `"ns{counter}"`;
the caller stores the counter back into the state. -/
def rollPfx (s : XMPPXMLGenerator) : Int × String :=
  (rollPfxLoop s.ns_pfxs_floating_in (s.ns_counter + 1)
     (s.ns_pfxs_floating_in.length + 1),
   "ns" ++ toString (rollPfxLoop s.ns_pfxs_floating_in (s.ns_counter + 1)
     (s.ns_pfxs_floating_in.length + 1)))

/-- The prefix validity test of `startPrefixMapping`: a `None` prefix is
always acceptable; a string prefix must not be `xml`/`xmlns`, must pass the
name validator, and must not contain a colon. -/
def pfxValid : Option String → Bool
  | none => true
  | some p =>
      !(p = "xml" || p = "xmlns" || !xmlValidateNameValue_str p ||
        listContains p.data ':')

/-- Model of `startPrefixMapping(prefix, uri, *, auto=False)`. -/
def startPfxMapping (s : XMPPXMLGenerator) (pfx uri : Option String)
    (auto : Bool) : GRes :=
  if !pfxValid pfx then
    .err (.invalidPfx pfx) s
  else if dictContains s.ns_pfxs_floating_in pfx then
    .err (.duplicatePfx pfx) s
  else
    let s1 := if auto then
        {s with ns_auto_pfxs_floating_in := setInsert s.ns_auto_pfxs_floating_in pfx}
      else s
    .ok {s1 with
          ns_pfxs_floating_in := dictSet s1.ns_pfxs_floating_in pfx uri
          ns_decls_floating_in := dictSet s1.ns_decls_floating_in uri pfx}

/-- Result of `_qname`: the rendered qualified name plus the state (the
auto-declaration path mutates the floating maps and the counter). -/
inductive QRes where
  | ok : String → XMPPXMLGenerator → QRes
  | err : GenError → XMPPXMLGenerator → QRes
deriving DecidableEq, Repr

/-- Model of `_qname(name, attr=False)`.  Note the two conditions of the unprefixed
branch are transcribed exactly as written in the source: `None in
self._curr_ns_map` tests whether the *URI* `None` is a key of the active
map, and `None in self._ns_prefixes_floating_in` tests whether a prefixless
declaration is pending. -/
def qname (s : XMPPXMLGenerator) (name : NameT) (attr : Bool) : QRes :=
  if listContains name.2.data ':' || !xmlValidateNameValue_str name.2 then
    .err (.invalidName name.2) s
  else if truthyU name.1 then
    if name.1 = some xmlNsUri then
      .ok ("xml:" ++ name.2) s
    else
      match dictGet s.curr_ns_map name.1 with
      | some pfx =>
          if truthyU pfx then .ok (pfx.getD "" ++ ":" ++ name.2) s
          else .ok name.2 s
      | none =>
        match dictGet s.ns_decls_floating_in name.1 with
        | some pfx =>
            if truthyU pfx then .ok (pfx.getD "" ++ ":" ++ name.2) s
            else .ok name.2 s
        | none =>
          match startPfxMapping {s with ns_counter := (rollPfx s).1}
                  (some (rollPfx s).2) name.1 true with
          | .ok s2 =>
              if truthyU (some (rollPfx s).2) then
                .ok ((rollPfx s).2 ++ ":" ++ name.2) s2
              else .ok name.2 s2
          | .err e s2 => .err e s2
  else if !attr &&
          (dictContains s.curr_ns_map none ||
           dictContains s.ns_pfxs_floating_in none) then
    .err .ambiguousNs s
  else
    .ok name.2 s

/-- Model of `_finish_pending_start_element`: close a deferred start tag. -/
def finishPending (s : XMPPXMLGenerator) : XMPPXMLGenerator :=
  match s.pending_start_element with
  | none => s
  | some _ => {s with pending_start_element := none, out := s.out ++ ">"}

/-- Result of `_pin_floating_ns_decls`: the full pending prefix map (for
rendering the `xmlns` attributes) plus the new state. -/
inductive PinRes where
  | ok : Dict (Option String) (Option String) → XMPPXMLGenerator → PinRes
  | err : GenError → XMPPXMLGenerator → PinRes
deriving DecidableEq, Repr

/-- Model of `_pin_floating_ns_decls(old_counter)`. -/
def pinFloatingNsDecls (s : XMPPXMLGenerator) (old_counter : Int) : PinRes :=
  if s.ns_pfxs_floating_out ≠ [] then
    .err .unclosedPfx s
  else
    let new_decls := s.ns_decls_floating_in
    let new_pfxs := s.ns_pfxs_floating_in
    let frame : ScopeFrame :=
      (s.curr_ns_map,
       listDiff (dictKeys new_pfxs) s.ns_auto_pfxs_floating_in,
       old_counter)
    .ok new_pfxs
      {s with
        ns_map_stack := frame :: s.ns_map_stack
        curr_ns_map := dictUpdate s.curr_ns_map new_decls
        ns_decls_floating_in := []
        ns_pfxs_floating_in := []}

end XMPPXMLGenerator

namespace XMPPXMLGenerator

/-- Result of resolving the attribute list of `startElementNS`: the rendered
`(qname, value)` pairs in caller order, plus the state (attribute resolution
can auto-declare namespaces). -/
inductive ARes where
  | ok : List (String × String) → XMPPXMLGenerator → ARes
  | err : GenError → XMPPXMLGenerator → ARes
deriving DecidableEq, Repr

/-- The attribute list comprehension of `startElementNS`: resolve each
attribute name with `attr=True`, in order, threading the state. -/
def resolveAttrs (s : XMPPXMLGenerator) :
    List (NameT × String) → ARes
  | [] => .ok [] s
  | (an, v) :: rest =>
    match qname s an true with
    | .err e s1 => .err e s1
    | .ok aq s1 =>
      match resolveAttrs s1 rest with
      | .err e s2 => .err e s2
      | .ok tl s2 => .ok ((aq, v) :: tl) s2

/-- Insert one pending declaration into a list sorted by prefix (comparing
as Python `sorted` compares the `(prefix, uri)` items: the `None` prefix has
been popped before sorting, and the remaining prefixes are pairwise
distinct, so only the prefix matters). -/
def insertDecl (x : Option String × Option String) :
    List (Option String × Option String) → List (Option String × Option String)
  | [] => [x]
  | y :: ys =>
      if strLe (x.1.getD "") (y.1.getD "") then x :: y :: ys
      else y :: insertDecl x ys

/-- Model of `sorted(pending_prefixes.items())` via insertion sort. -/
def sortedDecls : List (Option String × Option String) →
    List (Option String × Option String)
  | [] => []
  | x :: xs => insertDecl x (sortedDecls xs)

/-- Rendering of one `xmlns` declaration: `" xmlns"`, then `":prefix"` when
the prefix is truthy, then `=` and the quoted URI. -/
def renderDecl (d : Option String × Option String) : String :=
  " xmlns" ++ (if truthyU d.1 then ":" ++ d.1.getD "" else "") ++ "=" ++
    quoteattr (d.2.getD "")

/-- Rendering of one attribute: a space, the qualified name, `=`, the quoted
value. -/
def renderAttr (a : String × String) : String :=
  " " ++ a.1 ++ "=" ++ quoteattr a.2

/-- Model of `startElementNS(name, qname, attributes)` (the ignored `qname` argument
is omitted).  The write sequence follows the source exactly: finish any
deferred start tag, resolve the element name, resolve the attributes (in
caller order), reject a literal `xmlns` attribute name, pin the floating
declarations, then write `<`, the qualified name, the bare `xmlns`
declaration if a prefixless one is pending, the remaining declarations
sorted by prefix, the attributes, and finally either defer the `>` (short
empty elements) or write it. -/
def startElementNS (s0 : XMPPXMLGenerator) (name : NameT)
    (attributes : List (NameT × String)) : GRes :=
  match qname (finishPending s0) name false with
  | .err e s1 => .err e s1
  | .ok q s1 =>
    match resolveAttrs s1 attributes with
    | .err e s2 => .err e s2
    | .ok attrib s2 =>
      if attrib.any (fun av => av.1 = "xmlns") then
        .err .xmlnsAttr s2
      else
        match pinFloatingNsDecls s2 (finishPending s0).ns_counter with
        | .err e s3 => .err e s3
        | .ok pendingPfxs s3 =>
          let defaultDecl :=
            match dictGet pendingPfxs none with
            | some uri => " xmlns=" ++ quoteattr (uri.getD "")
            | none => ""
          let restPfxs :=
            match dictGet pendingPfxs none with
            | some _ => dictErase pendingPfxs none
            | none => pendingPfxs
          let declStr := String.join ((sortedDecls restPfxs).map renderDecl)
          let attrStr := String.join (attrib.map renderAttr)
          let s4 := {s3 with
            out := s3.out ++ "<" ++ q ++ defaultDecl ++ declStr ++ attrStr}
          if s4.short_empty_elements then
            .ok {s4 with pending_start_element := some name}
          else
            .ok {s4 with out := s4.out ++ ">"}

/-- The final statement of `endElementNS`: pop the top scope frame,
restoring the active map, the must-be-closed prefix set and the counter
(popping the empty stack is the Python `IndexError`). -/
def popFrame (s : XMPPXMLGenerator) : GRes :=
  match s.ns_map_stack with
  | [] => .err .stackEmpty s
  | frame :: rest =>
    .ok {s with
          curr_ns_map := frame.1
          ns_pfxs_floating_out := frame.2.1
          ns_counter := frame.2.2
          ns_map_stack := rest}

/-- Model of `endElementNS(name, qname)` (the ignored `qname` argument is omitted).
First the unclosed-prefix guard; then either the deferred start tag is
closed as `/>` (when it matches `name`) or a full closing tag is written
(re-resolving the qualified name, which can itself raise, skipping the
pop); finally the top scope frame is popped via `popFrame`. -/
def endElementNS (s : XMPPXMLGenerator) (name : NameT) : GRes :=
  if s.ns_pfxs_floating_out ≠ [] then
    .err .unclosedPfx s
  else if s.pending_start_element = some name then
    popFrame {s with pending_start_element := none, out := s.out ++ "/>"}
  else
    match qname s name false with
    | .err e s1 => .err e s1
    | .ok q s1 => popFrame {s1 with out := s1.out ++ "</" ++ q ++ ">"}

/-- Model of `endPrefixMapping(prefix)`: remove from the must-be-closed set;
`set.remove` raises when the prefix is absent. -/
def endPfxMapping (s : XMPPXMLGenerator) (pfx : Option String) : GRes :=
  if listContains s.ns_pfxs_floating_out pfx then
    .ok {s with ns_pfxs_floating_out := listRemove s.ns_pfxs_floating_out pfx}
  else
    .err (.notDeclared pfx) s

/-- The control-character test of `characters`: `0 <= ord(c) <= 8`,
`11 <= ord(c) <= 12` or `14 <= ord(c) <= 31`. -/
def isRestrictedChar (c : Char) : Bool :=
  c.toNat ≤ 8 || (11 ≤ c.toNat && c.toNat ≤ 12) ||
    (14 ≤ c.toNat && c.toNat ≤ 31)

/-- Model of `characters(chars)`: finish any deferred start tag, reject restricted
control characters, write the escaped text. -/
def characters (s0 : XMPPXMLGenerator) (chars : String) : GRes :=
  if chars.data.any isRestrictedChar then
    .err .restrictedCharacter (finishPending s0)
  else
    .ok {finishPending s0 with
          out := (finishPending s0).out ++ saxEscape chars}

/-- Model of `processingInstruction(target, data)`: always a `ValueError`. -/
def processingInstruction (s : XMPPXMLGenerator) : GRes :=
  .err .piForbidden s

/-- Model of `flush()`: finish any deferred start tag, then flush the sink (the sink
flush itself does not change the accumulated content). -/
def flush (s : XMPPXMLGenerator) : XMPPXMLGenerator :=
  finishPending s

/-- One public generator call, for writing whole traces. -/
inductive GenCall where
  | startElementNS (name : NameT) (attrs : List (NameT × String))
  | endElementNS (name : NameT)
  | startPfxMapping (pfx uri : Option String)
  | endPfxMapping (pfx : Option String)
  | characters (text : String)
  | flush
deriving DecidableEq, Repr

/-- Dispatch one call (the public `startPrefixMapping` has `auto=False`). -/
def runCall (s : XMPPXMLGenerator) : GenCall → GRes
  | .startElementNS name attrs => startElementNS s name attrs
  | .endElementNS name => endElementNS s name
  | .startPfxMapping pfx uri => startPfxMapping s pfx uri false
  | .endPfxMapping pfx => endPfxMapping s pfx
  | .characters text => characters s text
  | .flush => .ok (flush s)

/-- Run a list of calls, stopping at the first exception. -/
def runCalls (s : XMPPXMLGenerator) : List GenCall → GRes
  | [] => .ok s
  | c :: cs =>
    match runCall s c with
    | .ok s1 => runCalls s1 cs
    | .err e s1 => .err e s1

/-- The sink content of a successful run (`none` when the run raised). -/
def resOut : GRes → Option String
  | .ok s => some s.out
  | .err _ _ => none

/-- The counter of a successful run (`none` when the run raised). -/
def resCounter : GRes → Option Int
  | .ok s => some s.ns_counter
  | .err _ _ => none

end XMPPXMLGenerator

/-! ## XMPPXMLProcessor -/

/-- Modelled from the spec: the stream-envelope namespace URI constant
`namespaces.xmlstream` (an external namespace-URI constant; the spec only
calls it the reserved envelope namespace). -/
def namespaces_xmlstream : String := "http://etherx.jabber.org/streams"

/-- A simplified model of Python `int()` on the dot-separated version
fields: an optional sign followed by one or more decimal digits (the real
`int()` also strips whitespace and accepts underscores; the version strings
relevant here are plain digit strings). -/
def pyint (s : String) : Option Int :=
  match s.data with
  | [] => none
  | c :: cs =>
      if c = '-' then
        match cs with
        | [] => none
        | _ => if cs.all Char.isDigit then
                 some (-(cs.foldl (fun a d => a * 10 + (d.toNat - 48)) 0 : Nat))
               else none
      else
        if (c :: cs).all Char.isDigit then
          some ((c :: cs).foldl (fun a d => a * 10 + (d.toNat - 48)) 0 : Nat)
        else none

/-- Split a character list on the dot character. -/
def splitDotsCL : List Char → List (List Char)
  | [] => [[]]
  | c :: cs =>
    let r := splitDotsCL cs
    if c = '.' then [] :: r
    else
      match r with
      | h :: t => (c :: h) :: t
      | [] => [[c]]

/-- Split on the dot character, as `"x.y".split(".")` does (the empty
string yields one empty field). -/
def splitDots (s : String) : List String :=
  (splitDotsCL s.data).map (fun l => String.mk l)

/-- Collect a list of options, failing at the first `none` (models
`tuple(map(int, ...))`, which raises at the first bad field). -/
def allSome : List (Option α) → Option (List α)
  | [] => some []
  | none :: _ => none
  | some a :: rest => (allSome rest).map (a :: ·)

/-- Model of `tuple(map(int, version_string.split(".")))` with failure. -/
def parseVersion (s : String) : Option (List Int) :=
  allSome ((splitDots s).map pyint)

/-- Model of `".".join(map(str, version))`. -/
def joinDots : List Int → String
  | [] => ""
  | x :: xs =>
    match xs with
    | [] => toString x
    | _ => toString x ++ "." ++ joinDots xs

/-- Modelled from the spec: `jid.JID.fromstr`, the external protocol-address
parser (address parsing is out of scope for the source file); modelled as
accepting every non-empty string unchanged and rejecting the empty string.
No claim depends on its behaviour: every claim either errs before reaching
it or does not involve it. -/
def JID_fromstr (s : String) : Option String :=
  if s = "" then none else some s

/-- The four processor states. -/
inductive ProcessorState where
  | CLEAN
  | STARTED
  | STREAM_HEADER_PROCESSED
  | STREAM_FOOTER_PROCESSED
deriving DecidableEq, Repr

/-- One SAX-ish event forwarded to the stanza driver (the
`stanza_model.SAXDriver` collaborator is modelled as the list of events it
has received). -/
inductive SaxEvent where
  | startElementNS (name : NameT) (attrs : Dict NameT String)
  | endElementNS (name : NameT)
  | characters (text : String)
deriving DecidableEq, Repr

/-- Errors of the processor.  `streamError c t` is
`errors.StreamError((namespaces.streams, c), t)`; `invalidState` is the
`RuntimeError("invalid state: ...")`; `invalidParserConfig` the
`RuntimeError` of the non-NS element callbacks; `invalidJid` the
`ValueError` propagating out of `jid.JID.fromstr`. -/
inductive ProcError where
  | streamError (condition : String) (text : String)
  | invalidState (st : ProcessorState)
  | invalidParserConfig
  | invalidJid (s : String)
deriving DecidableEq, Repr

/-- The mutable state of an `XMPPXMLProcessor`: the state tag, the nesting
depth, the driver event log (`none` before `startDocument` and after
`endDocument`), and the remote stream-header fields (unset attributes are
`none`; `remote_to` distinguishes "set to None" from unset). -/
structure XMPPXMLProcessor where
  state : ProcessorState
  depth : Int
  driver : Option (List SaxEvent)
  remote_version : Option (List Int)
  remote_to : Option (Option String)
  remote_from : Option String
  remote_id : Option String
deriving DecidableEq, Repr

/-- Result of one processor callback. -/
inductive PRes where
  | ok : XMPPXMLProcessor → PRes
  | err : ProcError → XMPPXMLProcessor → PRes
deriving DecidableEq, Repr

namespace XMPPXMLProcessor

/-- The `__init__` state. -/
def init : XMPPXMLProcessor :=
  { state := .CLEAN, depth := 0, driver := none, remote_version := none,
    remote_to := none, remote_from := none, remote_id := none }

/-- Model of `PREDEFINED_ENTITIES`. -/
def PREDEFINED_ENTITIES : List String := ["amp", "lt", "gt", "apos", "quot"]

/-- Model of `comment(data)`: unconditionally a restricted-xml stream error. -/
def comment (p : XMPPXMLProcessor) (_data : String) : PRes :=
  .err (.streamError "restricted-xml" "comments are not allowed in XMPP") p

/-- Model of `startDTD(name, publicId, systemId)`: unconditionally a restricted-xml
stream error. -/
def startDTD (p : XMPPXMLProcessor) (_name _publicId _systemId : String) : PRes :=
  .err (.streamError "restricted-xml" "DTD declarations are not allowed in XMPP") p

/-- Model of `endDTD()`: a no-op. -/
def endDTD (p : XMPPXMLProcessor) : PRes := .ok p

/-- Model of `startCDATA()`: a no-op. -/
def startCDATA (p : XMPPXMLProcessor) : PRes := .ok p

/-- Model of `endCDATA()`: a no-op. -/
def endCDATA (p : XMPPXMLProcessor) : PRes := .ok p

/-- Model of `startEntity(name)`: a restricted-xml stream error unless the entity is
one of the five predefined ones. -/
def startEntity (p : XMPPXMLProcessor) (name : String) : PRes :=
  if listContains PREDEFINED_ENTITIES name then .ok p
  else .err (.streamError "restricted-xml"
              "non-predefined entities are not allowed in XMPP") p

/-- Model of `endEntity(name)`: a no-op. -/
def endEntity (p : XMPPXMLProcessor) (_name : String) : PRes := .ok p

/-- Model of `processingInstruction(target, foo)`: unconditionally a restricted-xml
stream error. -/
def processingInstruction (p : XMPPXMLProcessor) (_target _foo : String) : PRes :=
  .err (.streamError "restricted-xml"
         "processing instructions are not allowed in XMPP") p

/-- Model of `characters(characters)`: only legal in the header-processed state,
where the text is forwarded to the driver. -/
def characters (p : XMPPXMLProcessor) (text : String) : PRes :=
  if p.state ≠ .STREAM_HEADER_PROCESSED then
    .err (.invalidState p.state) p
  else
    match p.driver with
    | some evs => .ok {p with driver := some (evs ++ [.characters text])}
    | none => .err (.invalidState p.state) p

/-- Model of `startDocument()`: requires the clean state; moves to started, resets
the depth and instantiates the driver. -/
def startDocument (p : XMPPXMLProcessor) : PRes :=
  if p.state ≠ .CLEAN then .err (.invalidState p.state) p
  else .ok {p with state := .STARTED, depth := 0, driver := some []}

/-- Model of `startElement` (non-NS): an incorrectly configured parser. -/
def startElement (p : XMPPXMLProcessor) : PRes :=
  .err .invalidParserConfig p

/-- Model of `endElement` (non-NS): an incorrectly configured parser. -/
def endElement (p : XMPPXMLProcessor) : PRes :=
  .err .invalidParserConfig p

/-- Model of `endDocument()`: requires the footer-processed state; returns to clean
and releases the driver. -/
def endDocument (p : XMPPXMLProcessor) : PRes :=
  if p.state ≠ .STREAM_FOOTER_PROCESSED then .err (.invalidState p.state) p
  else .ok {p with state := .CLEAN, driver := none}

/-- Model of `startPrefixMapping(prefix, uri)`: accepted and ignored. -/
def startPfxMapping (p : XMPPXMLProcessor) : PRes := .ok p

/-- Model of `endPrefixMapping(prefix)`: accepted and ignored. -/
def endPfxMapping (p : XMPPXMLProcessor) : PRes := .ok p

/-- The `from`/`id` tail of the stream-header validation of
`startElementNS`, entered after `remote_version` and `remote_to` have been
stored into `p2`; `attrs2` is the attribute dict with `version` and `to`
already popped. -/
def startHeaderRest (p2 : XMPPXMLProcessor) (attrs2 : Dict NameT String) : PRes :=
  match dictGet attrs2 (none, "from") with
  | none =>
      .err (.streamError "undefined-condition"
             "from attribute required in response header") p2
  | some fstr =>
    match JID_fromstr fstr with
    | none => .err (.invalidJid fstr) p2
    | some fj =>
      let p3 := {p2 with remote_from := some fj}
      match dictGet (dictErase attrs2 (none, "from")) (none, "id") with
      | none =>
          .err (.streamError "undefined-condition"
                 "id attribute required in response header") p3
      | some idv =>
          .ok {p3 with remote_id := some idv,
                       state := .STREAM_HEADER_PROCESSED,
                       depth := p3.depth + 1}

/-- Model of `startElementNS(name, qname, attributes)` (the ignored `qname` argument
is omitted): forward in the header-processed state; otherwise only legal in
the started state, where the stream header is validated field by field, with
each raise carrying exactly the mutations already performed. -/
def startElementNS (p : XMPPXMLProcessor) (name : NameT)
    (attributes : Dict NameT String) : PRes :=
  if p.state = .STREAM_HEADER_PROCESSED then
    match p.driver with
    | some evs =>
        .ok {p with driver := some (evs ++ [.startElementNS name attributes]),
                    depth := p.depth + 1}
    | none => .err (.invalidState p.state) p
  else if p.state ≠ .STARTED then
    .err (.invalidState p.state) p
  else if name ≠ (some namespaces_xmlstream, "stream") then
    .err (.streamError "invalid-namespace"
           "stream has invalid namespace or localname") p
  else
    let vstr := dictGetD attributes (none, "version") "0.9"
    let attrs1 := dictErase attributes (none, "version")
    match parseVersion vstr with
    | none =>
        .err (.streamError "unsupported-version" "invalid version literal") p
    | some ver =>
      let p1 := {p with remote_version := some ver}
      if ver ≠ [1, 0] then
        .err (.streamError "unsupported-version" (joinDots ver)) p1
      else
        let toOpt := dictGet attrs1 (none, "to")
        let attrs2 := dictErase attrs1 (none, "to")
        match toOpt with
        | some tstr =>
          (match JID_fromstr tstr with
           | none => .err (.invalidJid tstr) p1
           | some tj => startHeaderRest {p1 with remote_to := some (some tj)} attrs2)
        | none => startHeaderRest {p1 with remote_to := some none} attrs2

/-- Model of `endElementNS(name, qname)`: only legal in the header-processed state;
the depth is decremented first, then either the event is forwarded (depth
still positive) or the footer is recorded without forwarding. -/
def endElementNS (p : XMPPXMLProcessor) (name : NameT) : PRes :=
  if p.state = .STREAM_HEADER_PROCESSED then
    let d := p.depth - 1
    if d > 0 then
      match p.driver with
      | some evs => .ok {p with depth := d, driver := some (evs ++ [.endElementNS name])}
      | none => .err (.invalidState p.state) p
    else
      .ok {p with depth := d, state := .STREAM_FOOTER_PROCESSED}
  else
    .err (.invalidState p.state) p

end XMPPXMLProcessor

/-! ## Concrete states used by the witnesses -/

/-- A generator state with one scope frame whose saved counter is 5, a
deferred start tag for `e`, and current counter 7. -/
def cwEnd : XMPPXMLGenerator :=
  { out := "", ns_map_stack := [([], [], 5)], curr_ns_map := [],
    short_empty_elements := true, pending_start_element := some (none, "e"),
    ns_pfxs_floating_in := [], ns_pfxs_floating_out := [],
    ns_auto_pfxs_floating_in := [], ns_decls_floating_in := [], ns_counter := 7 }

/-- The state `endElementNS` produces from `cwEnd` on the matching name:
the deferred tag closes as `/>` and the frame restore sets the counter
back to 5. -/
def cwEnd1 : XMPPXMLGenerator :=
  { out := "/>", ns_map_stack := [], curr_ns_map := [],
    short_empty_elements := true, pending_start_element := none,
    ns_pfxs_floating_in := [], ns_pfxs_floating_out := [],
    ns_auto_pfxs_floating_in := [], ns_decls_floating_in := [], ns_counter := 5 }

/-- A generator state whose must-be-closed prefix set still holds `p`
(an explicit declaration of the previous element not yet closed). -/
def cwUnclosed : XMPPXMLGenerator :=
  { out := "", ns_map_stack := [([], [], 0)], curr_ns_map := [],
    short_empty_elements := true, pending_start_element := none,
    ns_pfxs_floating_in := [], ns_pfxs_floating_out := [some "p"],
    ns_auto_pfxs_floating_in := [], ns_decls_floating_in := [], ns_counter := -1 }

/-- A generator state with a still-deferred start tag for `r`. -/
def cwPending : XMPPXMLGenerator :=
  { out := "<r", ns_map_stack := [([], [], 0)], curr_ns_map := [],
    short_empty_elements := true, pending_start_element := some (none, "r"),
    ns_pfxs_floating_in := [], ns_pfxs_floating_out := [],
    ns_auto_pfxs_floating_in := [], ns_decls_floating_in := [], ns_counter := -1 }

/-- A generator state with the prefix `p` already pending for the next
element. -/
def cwDup : XMPPXMLGenerator :=
  { out := "", ns_map_stack := [([], [], 0)], curr_ns_map := [],
    short_empty_elements := true, pending_start_element := none,
    ns_pfxs_floating_in := [(some "p", some "u")], ns_pfxs_floating_out := [],
    ns_auto_pfxs_floating_in := [], ns_decls_floating_in := [(some "u", some "p")],
    ns_counter := -1 }

/-- A processor that has just seen `startDocument`: started, depth 0, empty
driver log. -/
def cwStarted : XMPPXMLProcessor :=
  { state := .STARTED, depth := 0, driver := some [], remote_version := none,
    remote_to := none, remote_from := none, remote_id := none }

/-! ## Helper lemmas -/

namespace XMPPXMLGenerator

/-- The `_roll_prefix` search never goes below its starting candidate. -/
theorem rollPfxLoop_le (floating : Dict (Option String) (Option String)) :
    ∀ (fuel : Nat) (n : Int), n ≤ rollPfxLoop floating n fuel := by
  intro fuel
  induction fuel with
  | zero => intro n; simp [rollPfxLoop]
  | succ k ih =>
    intro n
    simp only [rollPfxLoop]
    split
    · exact le_trans (by omega) (ih (n + 1))
    · omega

/-- Model of `startPrefixMapping`: it leaves every field other than the
floating-in maps and the auto set unchanged when it succeeds. -/
theorem startPfxMapping_ok_fields {s t : XMPPXMLGenerator}
    {pfx uri : Option String} {auto : Bool}
    (h : startPfxMapping s pfx uri auto = .ok t) :
    t.ns_map_stack = s.ns_map_stack ∧
    t.ns_pfxs_floating_out = s.ns_pfxs_floating_out ∧
    t.out = s.out ∧ t.curr_ns_map = s.curr_ns_map ∧
    t.pending_start_element = s.pending_start_element ∧
    t.short_empty_elements = s.short_empty_elements ∧
    t.ns_counter = s.ns_counter := by
  unfold startPfxMapping at h
  split at h
  · exact absurd h (by simp)
  · split at h
    · exact absurd h (by simp)
    · rw [GRes.ok.injEq] at h
      subst h
      constructor
      · split <;> rfl
      constructor
      · split <;> rfl
      constructor
      · split <;> rfl
      constructor
      · split <;> rfl
      constructor
      · split <;> rfl
      constructor
      · split <;> rfl
      · split <;> rfl

/-- Model of `_qname`: it leaves the scope stack, the must-be-closed set,
the sink, the active map and the deferred-tag flag unchanged when it
succeeds (only the counter, the floating-in maps and the auto set can
change, on the auto-allocation path). -/
theorem qname_ok_fields {s t : XMPPXMLGenerator} {name : NameT}
    {attr : Bool} {q : String}
    (h : qname s name attr = .ok q t) :
    t.ns_map_stack = s.ns_map_stack ∧
    t.ns_pfxs_floating_out = s.ns_pfxs_floating_out ∧
    t.out = s.out ∧ t.curr_ns_map = s.curr_ns_map ∧
    t.pending_start_element = s.pending_start_element ∧
    t.short_empty_elements = s.short_empty_elements := by
  unfold qname at h
  split at h
  · exact absurd h (by simp)
  split at h
  · split at h
    · rw [QRes.ok.injEq] at h
      obtain ⟨-, h⟩ := h
      subst h
      exact ⟨rfl, rfl, rfl, rfl, rfl, rfl⟩
    · split at h
      · split at h <;>
          (rw [QRes.ok.injEq] at h; obtain ⟨-, h⟩ := h; subst h;
           exact ⟨rfl, rfl, rfl, rfl, rfl, rfl⟩)
      · split at h
        · split at h <;>
            (rw [QRes.ok.injEq] at h; obtain ⟨-, h⟩ := h; subst h;
             exact ⟨rfl, rfl, rfl, rfl, rfl, rfl⟩)
        · split at h
          case _ s2 hspm =>
            have hf := startPfxMapping_ok_fields hspm
            split at h <;>
              (rw [QRes.ok.injEq] at h; obtain ⟨-, h⟩ := h; subst h;
               exact ⟨hf.1, hf.2.1, hf.2.2.1, hf.2.2.2.1, hf.2.2.2.2.1,
                      hf.2.2.2.2.2.1⟩)
          case _ e s2 hspm =>
            exact absurd h (by simp)
  split at h
  · exact absurd h (by simp)
  · rw [QRes.ok.injEq] at h
    obtain ⟨-, h⟩ := h
    subst h
    exact ⟨rfl, rfl, rfl, rfl, rfl, rfl⟩

/-- Model of `_finish_pending_start_element`: it changes only the
deferred-tag flag and the sink. -/
theorem finishPending_fields (s : XMPPXMLGenerator) :
    (finishPending s).ns_pfxs_floating_out = s.ns_pfxs_floating_out ∧
    (finishPending s).ns_map_stack = s.ns_map_stack ∧
    (finishPending s).ns_counter = s.ns_counter := by
  unfold finishPending
  split <;> exact ⟨rfl, rfl, rfl⟩

/-- The control-character ranges of `characters` are exactly the ASCII
control characters below 32 other than tab, newline and carriage
return. -/
theorem isRestrictedChar_iff (c : Char) :
    isRestrictedChar c = true ↔
      (c.toNat < 32 ∧ c.toNat ≠ 9 ∧ c.toNat ≠ 10 ∧ c.toNat ≠ 13) := by
  unfold isRestrictedChar
  simp only [Bool.or_eq_true, Bool.and_eq_true, decide_eq_true_eq]
  omega

end XMPPXMLGenerator

/-! ## Claim C1 -/

/-- Claim C1 is refuted on the code: automatic prefixes are *not* pairwise
distinct over the instance's lifetime.  In the trace below, opening `a`
(fresh namespace `u1`) inside `r` auto-allocates `ns0`; closing `a`
restores the counter to the value saved by the scope frame (visible in the
second conjunct: the counter is back at its initial value `-1`); opening
the sibling `b` (fresh namespace `u2`) then allocates `ns0` a second time,
as the output shows (`xmlns:ns0` appears for both `a` and `b`). -/
theorem xml_c1_counterexample :
    XMPPXMLGenerator.resOut (XMPPXMLGenerator.runCalls (XMPPXMLGenerator.init true)
        [ .startElementNS (none, "r") [],
          .startElementNS (some "u1", "a") [],
          .endElementNS (some "u1", "a"),
          .startElementNS (some "u2", "b") [] ])
      = some "<r><ns0:a xmlns:ns0=\"u1\"/><ns0:b xmlns:ns0=\"u2\"" ∧
    XMPPXMLGenerator.resCounter (XMPPXMLGenerator.runCalls (XMPPXMLGenerator.init true)
        [ .startElementNS (none, "r") [],
          .startElementNS (some "u1", "a") [],
          .endElementNS (some "u1", "a") ])
      = some (-1) :=
  ⟨rfl, rfl⟩

/-- Claim C1 (amended): one automatic allocation (`_roll_prefix`) strictly
advances the internal counter and returns the prefix `ns<counter>`, so
allocations with no intervening `endElementNS` use strictly increasing
counter values and never re-issue one; but `endElementNS` restores the
counter to the value saved in the top scope frame (taken before the
matching `startElementNS`), so across open/close cycles counter values and
hence prefixes can be re-issued. -/
theorem xml_c1_amended :
    (∀ s : XMPPXMLGenerator,
       s.ns_counter < (XMPPXMLGenerator.rollPfx s).1 ∧
       (XMPPXMLGenerator.rollPfx s).2 =
         "ns" ++ toString (XMPPXMLGenerator.rollPfx s).1) ∧
    (∀ (s s1 : XMPPXMLGenerator) (name : NameT) (frame : ScopeFrame)
       (rest : List ScopeFrame),
       s.ns_map_stack = frame :: rest →
       XMPPXMLGenerator.endElementNS s name = .ok s1 →
       s1.ns_counter = frame.2.2) := by
  constructor
  · intro s
    constructor
    · have h := XMPPXMLGenerator.rollPfxLoop_le s.ns_pfxs_floating_in
        (s.ns_pfxs_floating_in.length + 1) (s.ns_counter + 1)
      unfold XMPPXMLGenerator.rollPfx
      omega
    · rfl
  · intro s s1 name frame rest hstack h
    unfold XMPPXMLGenerator.endElementNS at h
    split at h
    · exact absurd h (by simp)
    split at h
    · unfold XMPPXMLGenerator.popFrame at h
      simp only at h
      rw [hstack] at h
      simp only [GRes.ok.injEq] at h
      subst h
      rfl
    · split at h
      · exact absurd h (by simp)
      case _ q t hq =>
        have hf := XMPPXMLGenerator.qname_ok_fields hq
        unfold XMPPXMLGenerator.popFrame at h
        simp only at h
        rw [hf.1, hstack] at h
        simp only [GRes.ok.injEq] at h
        subst h
        rfl

/-- Witness for C1 (amended): a fresh generator's counter strictly
increases on a roll, and closing the deferred element of `cwEnd` (whose
top frame saved counter 5, current counter 7) yields `cwEnd1`, whose
counter is the restored 5. -/
theorem xml_c1_amended_witness :
    (XMPPXMLGenerator.init true).ns_counter <
      (XMPPXMLGenerator.rollPfx (XMPPXMLGenerator.init true)).1 ∧
    cwEnd1.ns_counter = 5 :=
  ⟨(xml_c1_amended.1 (XMPPXMLGenerator.init true)).1,
   xml_c1_amended.2 cwEnd cwEnd1 (none, "e") ([], [], 5) [] rfl rfl⟩

/-! ## Claim C2 -/

/-- Claim C2: in the started state, a `startElementNS` for the envelope
element whose `version` attribute parses to anything other than `(1, 0)`
raises the unsupported-version stream error, and the processor's state is
unchanged (still started; only the `remote_version` field has been
assigned, exactly as the Python assignment before the raise does). -/
theorem xml_c2 :
    ∀ (p : XMPPXMLProcessor) (attrs : Dict NameT String) (ver : List Int),
      p.state = .STARTED →
      parseVersion (dictGetD attrs (none, "version") "0.9") = some ver →
      ver ≠ [1, 0] →
      XMPPXMLProcessor.startElementNS p (some namespaces_xmlstream, "stream") attrs =
        .err (.streamError "unsupported-version" (joinDots ver))
          {p with remote_version := some ver} ∧
      ({p with remote_version := some ver} : XMPPXMLProcessor).state = .STARTED := by
  intro p attrs ver hst hv hne
  refine ⟨?_, hst⟩
  unfold XMPPXMLProcessor.startElementNS
  rw [hst]
  rw [if_neg (by decide)]
  rw [if_neg (by simp)]
  rw [if_neg (by simp)]
  dsimp only
  rw [hv]
  dsimp only
  rw [if_pos hne]

/-- Witness for C2: a started processor receiving the envelope with
`version="2.0"` (and well-formed `from`/`id`) fails with the
unsupported-version stream error and remains started. -/
theorem xml_c2_witness :
    XMPPXMLProcessor.startElementNS cwStarted (some namespaces_xmlstream, "stream")
        [((none, "version"), "2.0"), ((none, "from"), "a@b"), ((none, "id"), "s1")] =
      .err (.streamError "unsupported-version" "2.0")
        {cwStarted with remote_version := some [2, 0]} ∧
    ({cwStarted with remote_version := some [2, 0]} : XMPPXMLProcessor).state
      = .STARTED :=
  xml_c2 cwStarted
    [((none, "version"), "2.0"), ((none, "from"), "a@b"), ((none, "id"), "s1")]
    [2, 0] rfl rfl (by decide)

/-! ## Claim C3 -/

/-- Claim C3 is refuted on the code in its same-URI half: after declaring
prefix `p` for URI `u`, declaring a *different* prefix `q` for the *same*
URI `u` before any `startElementNS` is accepted, not rejected — both
prefixes end up pending and the pending URI-to-prefix map simply records
the later prefix `q` for `u`. -/
theorem xml_c3_counterexample :
    XMPPXMLGenerator.runCalls (XMPPXMLGenerator.init true)
        [ .startPfxMapping (some "p") (some "u"),
          .startPfxMapping (some "q") (some "u") ]
      = .ok { out := ""
              ns_map_stack := [([], [], 0)]
              curr_ns_map := []
              short_empty_elements := true
              pending_start_element := none
              ns_pfxs_floating_in := [(some "p", some "u"), (some "q", some "u")]
              ns_pfxs_floating_out := []
              ns_auto_pfxs_floating_in := []
              ns_decls_floating_in := [(some "u", some "q")]
              ns_counter := -1 } :=
  rfl

/-- Claim C3 (amended): between element boundaries at most one pending
declaration per explicit *prefix* is allowed — a second
`startPrefixMapping` with the same (valid) prefix before the next
`startElementNS` is rejected as a duplicate; a declaration whose prefix is
not pending is accepted even if its URI already is, overriding the pending
URI-to-prefix binding. -/
theorem xml_c3_amended :
    ∀ (s : XMPPXMLGenerator) (pfx uri : Option String) (auto : Bool),
      (XMPPXMLGenerator.pfxValid pfx = true →
       dictContains s.ns_pfxs_floating_in pfx = true →
       XMPPXMLGenerator.startPfxMapping s pfx uri auto =
         .err (.duplicatePfx pfx) s) ∧
      (XMPPXMLGenerator.pfxValid pfx = true →
       dictContains s.ns_pfxs_floating_in pfx = false →
       XMPPXMLGenerator.startPfxMapping s pfx uri false =
         .ok {s with
               ns_pfxs_floating_in := dictSet s.ns_pfxs_floating_in pfx uri
               ns_decls_floating_in := dictSet s.ns_decls_floating_in uri pfx}) := by
  intro s pfx uri auto
  constructor
  · intro hv hd
    unfold XMPPXMLGenerator.startPfxMapping
    rw [hv, hd]
    rfl
  · intro hv hd
    unfold XMPPXMLGenerator.startPfxMapping
    rw [hv, hd]
    rfl

/-- Witness for C3 (amended): re-declaring the pending prefix `p` fails
with the duplicate error; declaring `p` on a fresh generator succeeds. -/
theorem xml_c3_amended_witness :
    XMPPXMLGenerator.startPfxMapping cwDup (some "p") (some "v") false =
      .err (.duplicatePfx (some "p")) cwDup ∧
    XMPPXMLGenerator.startPfxMapping (XMPPXMLGenerator.init true)
        (some "p") (some "u") false =
      .ok {XMPPXMLGenerator.init true with
            ns_pfxs_floating_in := [(some "p", some "u")]
            ns_decls_floating_in := [(some "u", some "p")]} :=
  ⟨(xml_c3_amended cwDup (some "p") (some "v") false).1 (by decide) (by decide),
   (xml_c3_amended (XMPPXMLGenerator.init true) (some "p") (some "u") false).2
     (by decide) (by decide)⟩

/-! ## Claim C4 -/

/-- Claim C4 names a real bug in the code.  The docstring of
`startElementNS` promises a `ValueError` for an absent-URI element while a
prefixless namespace is active, but the source tests `None in
self._curr_ns_map` — whether the *URI* `None` is a key of the active map —
instead of whether any URI is bound to the *prefix* `None`.  In the trace
below, the first conjunct shows the state after `<e xmlns="u">` is opened:
the active map binds URI `u` prefixless (`(some "u", none)`) and nothing is
pending.  The second conjunct evaluates the failing call: starting the
absent-URI child `x` succeeds and emits `<x` (a conforming parser would
place `x` in namespace `u`), where the claim — and the code's own
docstring — require an ambiguous-namespace error. -/
theorem xml_c4_code_bug :
    XMPPXMLGenerator.runCalls (XMPPXMLGenerator.init true)
        [ .startPfxMapping none (some "u"),
          .startElementNS (some "u", "e") [] ]
      = .ok { out := "<e xmlns=\"u\""
              ns_map_stack := [([], [none], -1), ([], [], 0)]
              curr_ns_map := [(some "u", none)]
              short_empty_elements := true
              pending_start_element := some (some "u", "e")
              ns_pfxs_floating_in := []
              ns_pfxs_floating_out := []
              ns_auto_pfxs_floating_in := []
              ns_decls_floating_in := []
              ns_counter := -1 } ∧
    XMPPXMLGenerator.resOut (XMPPXMLGenerator.runCalls (XMPPXMLGenerator.init true)
        [ .startPfxMapping none (some "u"),
          .startElementNS (some "u", "e") [],
          .startElementNS (none, "x") [] ])
      = some "<e xmlns=\"u\"><x" :=
  ⟨rfl, rfl⟩

/-! ## Claim C5 -/

/-- Claim C5: with explicit prefix declarations of the previous element
still unclosed (non-empty must-be-closed set), the next `endElementNS`
raises the unclosed-prefix error (`unclosedPfx`, the generator's one
`RuntimeError` site) immediately, for any arguments; and the next
`startElementNS` — here with no attributes, provided its element name
resolves — raises the same error at the pin step, after the deferred `>`
and the name resolution. -/
theorem xml_c5 :
    (∀ (s : XMPPXMLGenerator) (name : NameT),
       s.ns_pfxs_floating_out ≠ [] →
       XMPPXMLGenerator.endElementNS s name = .err .unclosedPfx s) ∧
    (∀ (s t : XMPPXMLGenerator) (name : NameT) (q : String),
       s.ns_pfxs_floating_out ≠ [] →
       XMPPXMLGenerator.qname (XMPPXMLGenerator.finishPending s) name false
         = .ok q t →
       XMPPXMLGenerator.startElementNS s name [] = .err .unclosedPfx t) := by
  constructor
  · intro s name h
    unfold XMPPXMLGenerator.endElementNS
    rw [if_pos h]
  · intro s t name q h hq
    have hf := XMPPXMLGenerator.qname_ok_fields hq
    have hfp := XMPPXMLGenerator.finishPending_fields s
    unfold XMPPXMLGenerator.startElementNS
    rw [hq]
    dsimp only [XMPPXMLGenerator.resolveAttrs]
    rw [if_neg (by simp)]
    unfold XMPPXMLGenerator.pinFloatingNsDecls
    rw [if_pos (by rw [hf.2.1, hfp.1]; exact h)]

/-- Witness for C5: on `cwUnclosed` (prefix `p` still unclosed) both the
next `endElementNS` and the next `startElementNS` fail with the
unclosed-prefix error. -/
theorem xml_c5_witness :
    XMPPXMLGenerator.endElementNS cwUnclosed (none, "e")
      = .err .unclosedPfx cwUnclosed ∧
    XMPPXMLGenerator.startElementNS cwUnclosed (none, "e") []
      = .err .unclosedPfx cwUnclosed :=
  ⟨xml_c5.1 cwUnclosed (none, "e") (by decide),
   xml_c5.2 cwUnclosed cwUnclosed (none, "e") "e" (by decide) rfl⟩

/-! ## Claim C6 -/

/-- Claim C6: `characters` raises exactly when the text holds an ASCII
control character (code point below 32) other than tab, newline and
carriage return — the code's ranges 0 to 8, 11 to 12, 14 to 31 are proved
equal to that set — and otherwise appends the text with `&`, `<`, `>`
escaped (after finishing any deferred start tag, in both cases). -/
theorem xml_c6 :
    ∀ (g : XMPPXMLGenerator) (chars : String),
      ((∃ c ∈ chars.data,
          c.toNat < 32 ∧ c.toNat ≠ 9 ∧ c.toNat ≠ 10 ∧ c.toNat ≠ 13) →
        XMPPXMLGenerator.characters g chars =
          .err .restrictedCharacter (XMPPXMLGenerator.finishPending g)) ∧
      ((∀ c ∈ chars.data,
          ¬(c.toNat < 32 ∧ c.toNat ≠ 9 ∧ c.toNat ≠ 10 ∧ c.toNat ≠ 13)) →
        XMPPXMLGenerator.characters g chars =
          .ok {XMPPXMLGenerator.finishPending g with
                out := (XMPPXMLGenerator.finishPending g).out ++ saxEscape chars}) := by
  intro g chars
  constructor
  · intro hex
    unfold XMPPXMLGenerator.characters
    rw [if_pos ?_]
    rw [List.any_eq_true]
    obtain ⟨c, hc, hr⟩ := hex
    exact ⟨c, hc, (XMPPXMLGenerator.isRestrictedChar_iff c).mpr hr⟩
  · intro hall
    unfold XMPPXMLGenerator.characters
    rw [if_neg ?_]
    rw [List.any_eq_true]
    rintro ⟨c, hc, hr⟩
    exact hall c hc ((XMPPXMLGenerator.isRestrictedChar_iff c).mp hr)

/-- Witness for C6: text holding the control character 1 is rejected; the
text `a<b` is accepted and written escaped. -/
theorem xml_c6_witness :
    XMPPXMLGenerator.characters (XMPPXMLGenerator.init true) "a\x01b" =
      .err .restrictedCharacter
        (XMPPXMLGenerator.finishPending (XMPPXMLGenerator.init true)) ∧
    XMPPXMLGenerator.characters (XMPPXMLGenerator.init true) "a<b" =
      .ok {XMPPXMLGenerator.finishPending (XMPPXMLGenerator.init true) with
            out := (XMPPXMLGenerator.finishPending (XMPPXMLGenerator.init true)).out
                     ++ saxEscape "a<b"} :=
  ⟨(xml_c6 (XMPPXMLGenerator.init true) "a\x01b").1 (by decide),
   (xml_c6 (XMPPXMLGenerator.init true) "a<b").2 (by decide)⟩

/-! ## Claim C7 -/

/-- Claim C7: with short empty elements enabled, `startElementNS`
immediately followed by the matching `endElementNS` emits `<e/>`; the same
pair with an intervening `flush` emits `<e></e>`. -/
theorem xml_c7 :
    XMPPXMLGenerator.resOut (XMPPXMLGenerator.runCalls (XMPPXMLGenerator.init true)
        [ .startElementNS (none, "e") [], .endElementNS (none, "e") ])
      = some "<e/>" ∧
    XMPPXMLGenerator.resOut (XMPPXMLGenerator.runCalls (XMPPXMLGenerator.init true)
        [ .startElementNS (none, "e") [], .flush, .endElementNS (none, "e") ])
      = some "<e></e>" :=
  ⟨rfl, rfl⟩

/-! ## Claim C8 -/

/-- Claim C8: in every processor state, `comment`, `startDTD`,
`processingInstruction` and `startEntity` on a non-predefined entity raise
the restricted-xml stream error, and the returned state is the input state
itself — in particular the driver event log is untouched, so nothing is
forwarded to the stanza-driver collaborator. -/
theorem xml_c8 :
    ∀ (p : XMPPXMLProcessor) (data nm pubId sysId target foo ent : String),
      XMPPXMLProcessor.comment p data =
        .err (.streamError "restricted-xml" "comments are not allowed in XMPP") p ∧
      XMPPXMLProcessor.startDTD p nm pubId sysId =
        .err (.streamError "restricted-xml"
               "DTD declarations are not allowed in XMPP") p ∧
      XMPPXMLProcessor.processingInstruction p target foo =
        .err (.streamError "restricted-xml"
               "processing instructions are not allowed in XMPP") p ∧
      (listContains XMPPXMLProcessor.PREDEFINED_ENTITIES ent = false →
        XMPPXMLProcessor.startEntity p ent =
          .err (.streamError "restricted-xml"
                 "non-predefined entities are not allowed in XMPP") p) := by
  intro p data nm pubId sysId target foo ent
  refine ⟨rfl, rfl, rfl, ?_⟩
  intro h
  unfold XMPPXMLProcessor.startEntity
  rw [h]
  rfl

/-- Witness for C8: the entity `nbsp` is not predefined, so `startEntity`
on a fresh processor fails with the restricted-xml stream error. -/
theorem xml_c8_witness :
    XMPPXMLProcessor.startEntity XMPPXMLProcessor.init "nbsp" =
      .err (.streamError "restricted-xml"
             "non-predefined entities are not allowed in XMPP")
        XMPPXMLProcessor.init :=
  (xml_c8 XMPPXMLProcessor.init "" "" "" "" "" "" "nbsp").2.2.2 (by decide)

/-! ## Claim C9 -/

/-- Claim C9: `startElementNS` is not atomic with respect to the sink.
With a previous start tag still deferred, a call whose element name
contains a colon (and hence raises the invalid-name `ValueError`) first
writes the closing `>` of the deferred tag: the error state's sink is the
old sink extended by `>`. -/
theorem xml_c9 :
    ∀ (s : XMPPXMLGenerator) (pn name : NameT)
      (attrs : List (NameT × String)),
      s.pending_start_element = some pn →
      listContains name.2.data ':' = true →
      XMPPXMLGenerator.startElementNS s name attrs =
        .err (.invalidName name.2)
          {s with pending_start_element := none, out := s.out ++ ">"} := by
  intro s pn name attrs hpend hcolon
  have hfin : XMPPXMLGenerator.finishPending s =
      {s with pending_start_element := none, out := s.out ++ ">"} := by
    unfold XMPPXMLGenerator.finishPending
    rw [hpend]
  unfold XMPPXMLGenerator.startElementNS
  have hq : XMPPXMLGenerator.qname (XMPPXMLGenerator.finishPending s) name false
      = .err (.invalidName name.2) (XMPPXMLGenerator.finishPending s) := by
    unfold XMPPXMLGenerator.qname
    rw [if_pos (by rw [hcolon]; rfl)]
  rw [hq, hfin]

/-- Witness for C9: on `cwPending` (deferred start tag for `r`, sink
`<r`), starting the invalid name `a:b` raises the invalid-name error with
the sink already extended to `<r>`. -/
theorem xml_c9_witness :
    XMPPXMLGenerator.startElementNS cwPending (none, "a:b") [] =
      .err (.invalidName "a:b")
        {cwPending with pending_start_element := none,
                        out := cwPending.out ++ ">"} :=
  xml_c9 cwPending (none, "r") (none, "a:b") [] rfl (by decide)

/-! ## Claim C10 -/

/-- Claim C10: `startCDATA`, `endCDATA` and `endDTD` are no-ops in every
processor state: they never raise and return the state unchanged (state
tag, depth, driver log and header fields included). -/
theorem xml_c10 :
    ∀ p : XMPPXMLProcessor,
      XMPPXMLProcessor.startCDATA p = .ok p ∧
      XMPPXMLProcessor.endCDATA p = .ok p ∧
      XMPPXMLProcessor.endDTD p = .ok p :=
  fun _ => ⟨rfl, rfl, rfl⟩
